import Mathlib

set_option maxRecDepth 4096

/-!
Verification of the OGN identity decoder and feed session of the
`bolognese` APRS-IS console client (`examples/console.rs`).

Strings are modelled as `List Char`; for the ASCII inputs the claims are
about, Rust byte indices and our character indices coincide.  A Rust
panic (out-of-range string slice, `Option::unwrap` on `None`) is modelled
as the `.error` branch of an `Except String` result.
-/

/-- Aircraft type, mirroring `enum AircraftType` in `console.rs`. -/
inductive AircraftType where
  | Unknown
  | Glider
  | TowPlane
  | Helicopter
  | Skydiver
  | DropPlane
  | Hangglider
  | Paraglider
  | PoweredAircraft
  | JetAircraft
  | Balloon
  | Airship
  | Uav
  | Static
deriving DecidableEq, BEq, Repr

/-- Embedding of `impl TryFrom<u8> for AircraftType` in `console.rs`:
`Ok` becomes `some`, `Err(())` becomes `none`. -/
def AircraftType.tryFrom (val : Nat) : Option AircraftType :=
  match val with
  | 0x0 => some .Unknown
  | 0x1 => some .Glider
  | 0x2 => some .TowPlane
  | 0x3 => some .Helicopter
  | 0x4 => some .Skydiver
  | 0x5 => some .DropPlane
  | 0x6 => some .Hangglider
  | 0x7 => some .Paraglider
  | 0x8 => some .PoweredAircraft
  | 0x9 => some .JetAircraft
  | 0xa => some .Unknown
  | 0xb => some .Balloon
  | 0xc => some .Airship
  | 0xd => some .Uav
  | 0xe => some .Static
  | 0xf => some .Unknown
  | _ => none

/-- Address type, mirroring `enum AddressType` in `console.rs`. -/
inductive AddressType where
  | Random
  | Icao
  | Flarm
  | Ogn
deriving DecidableEq, BEq, Repr

/-- Embedding of `impl TryFrom<u8> for AddressType` in `console.rs`. -/
def AddressType.tryFrom (val : Nat) : Option AddressType :=
  match val with
  | 0x0 => some .Random
  | 0x1 => some .Icao
  | 0x2 => some .Flarm
  | 0x3 => some .Ogn
  | _ => none

/-- Decoded identity record, mirroring `struct OgnComment` in `console.rs`. -/
structure OgnComment where
  address : List Char
  stealth_mode : Bool
  no_tracking : Bool
  aircraft_type : AircraftType
  address_type : AddressType
deriving DecidableEq, Repr

/-- Rust `char::to_digit(16)`: hex digit value of a character, accepting
both lowercase and uppercase letters. -/
def to_digit16 (c : Char) : Option Nat :=
  if '0' ≤ c ∧ c ≤ '9' then some (c.toNat - '0'.toNat)
  else if 'a' ≤ c ∧ c ≤ 'f' then some (c.toNat - 'a'.toNat + 10)
  else if 'A' ≤ c ∧ c ≤ 'F' then some (c.toNat - 'A'.toNat + 10)
  else none

/-- Digit-accumulation loop of `u8::from_str_radix(s, 16)`: fails on a
non-hex-digit character and on overflow past `u8::MAX`. -/
def u8Radix16Go : List Char → Nat → Option Nat
  | [], acc => some acc
  | c :: cs, acc =>
    match to_digit16 c with
    | none => none
    | some d => if acc * 16 + d > 255 then none else u8Radix16Go cs (acc * 16 + d)

/-- Embedding of `u8::from_str_radix(s, 16)`: an empty string or a lone
sign fails; a leading `+` is accepted and skipped; a leading `-` on the
unsigned type is not a digit, so it fails. -/
def u8FromStrRadix16 (s : List Char) : Option Nat :=
  match s with
  | [] => none
  | ['+'] => none
  | '+' :: rest => u8Radix16Go rest 0
  | cs => u8Radix16Go cs 0

/-- Rust `str::split(" ")`: split on single spaces, keeping empty chunks. -/
def splitOnSpace : List Char → List (List Char)
  | [] => [[]]
  | c :: cs =>
    if c = ' ' then [] :: splitOnSpace cs
    else
      match splitOnSpace cs with
      | t :: ts => (c :: t) :: ts
      | [] => [[c]]

/-- Panic message modelling the Rust out-of-range string slice `&id[2..4]`
(or `&id[4..]`) on a token shorter than four characters. -/
def slicePanicMsg : String := "byte index out of bounds"

/-- Panic message modelling `Option::unwrap` called on a `None` value. -/
def unwrapPanicMsg : String := "called unwrap on a None value"

/-- Embedding of `parse_ogn_comment` in `console.rs`.

The source splits the comment on spaces, skips tokens until one starts
with `"id"`, returns `None` when no such token exists, slices the token
at byte positions `[2..4]` (a panic when the token is shorter than four
bytes, modelled as `.error slicePanicMsg`), parses those two characters
as a hex byte (`None` on failure), and builds the record, unwrapping the
two `TryFrom` conversions (a panic on `Err`, modelled as
`.error unwrapPanicMsg`). -/
def parse_ogn_comment (comment : List Char) : Except String (Option OgnComment) :=
  match (splitOnSpace comment).dropWhile (fun x => !(['i', 'd'].isPrefixOf x)) with
  | [] => .ok none
  | id :: _ =>
    if id.length < 4 then .error slicePanicMsg
    else
      match u8FromStrRadix16 ((id.drop 2).take 2) with
      | none => .ok none
      | some flags =>
        match AircraftType.tryFrom ((flags &&& 0b00111100) >>> 2),
              AddressType.tryFrom (flags &&& 0b00000011) with
        | some at2, some ad2 =>
          .ok (some
            { address := id.drop 4
              stealth_mode := decide ((flags &&& 0b10000000) > 0)
              no_tracking := decide ((flags &&& 0b01000000) > 0)
              aircraft_type := at2
              address_type := ad2 })
        | _, _ => .error unwrapPanicMsg

/-- The closed 16-value aircraft-type table of spec §3, with raw values
0xA and 0xF both aliasing to Unknown.  Stated from the spec's words, to
be compared with the source's `AircraftType.tryFrom`. -/
def aircraftTypeSpec (val : Nat) : AircraftType :=
  match val with
  | 0x1 => .Glider
  | 0x2 => .TowPlane
  | 0x3 => .Helicopter
  | 0x4 => .Skydiver
  | 0x5 => .DropPlane
  | 0x6 => .Hangglider
  | 0x7 => .Paraglider
  | 0x8 => .PoweredAircraft
  | 0x9 => .JetAircraft
  | 0xb => .Balloon
  | 0xc => .Airship
  | 0xd => .Uav
  | 0xe => .Static
  | _ => .Unknown

/-- The address-type table of spec §3: {0: Random, 1: Icao, 2: Flarm,
3: Ogn}.  Stated from the spec's words. -/
def addressTypeSpec (val : Nat) : AddressType :=
  match val with
  | 0x1 => .Icao
  | 0x2 => .Flarm
  | 0x3 => .Ogn
  | _ => .Random

/-- Uppercase hexadecimal digit character for a value below 16. -/
def hexDigitChar (n : Nat) : Char :=
  if n < 10 then Nat.digitChar n else Char.ofNat ('A'.toNat + (n - 10))

/-- Two-digit uppercase hexadecimal rendering of a byte. -/
def hexByte (b : Nat) : List Char :=
  [hexDigitChar (b / 16), hexDigitChar (b % 16)]

/-- APRS timestamp, mirroring `aprs_parser::Timestamp` as used by
`console.rs` (variants `DDHHMM`, `HHMMSS`, `Unsupported`). -/
inductive Timestamp where
  | DDHHMM (d h m : Nat)
  | HHMMSS (h m s : Nat)
  | Unsupported (val : List Char)
deriving DecidableEq, Repr

/-- Rust `format!("{:02}", n)`: decimal digits left-padded with zeros to
a minimum width of two. -/
def pad2 (n : Nat) : List Char :=
  List.replicate (2 - (Nat.toDigits 10 n).length) '0' ++ Nat.toDigits 10 n

/-- Embedding of `timestamp_to_str` in `console.rs`. -/
def timestamp_to_str : Timestamp → List Char
  | .DDHHMM d h m => pad2 d ++ '/' :: (pad2 h ++ ':' :: pad2 m)
  | .HHMMSS h m s => "Today/".toList ++ pad2 h ++ ':' :: (pad2 m ++ ':' :: pad2 s)
  | .Unsupported val => val

/-- The timestamp display of `read_messages`:
`pos.timestamp.map(timestamp_to_str).unwrap_or_else(|| "?")`. -/
def timestampDisplay (ts : Option Timestamp) : List Char :=
  (ts.map timestamp_to_str).getD ['?']

/-- Position payload, mirroring the `aprs_parser` position fields used by
`console.rs` (`timestamp`, `latitude`, `longitude`, `comment`). -/
structure PositionData where
  timestamp : Option Timestamp
  latitude : Float
  longitude : Float
  comment : List Char

/-- Parsed-line payload, mirroring `aprs_parser::APRSData` as matched in
`read_messages` (`Position` and `Unknown`). -/
inductive APRSData where
  | position (pos : PositionData)
  | unknown

/-- Parsed APRS message, mirroring the `aprs_parser` fields used by
`read_messages`: `from.call`, `to.call`, `via` (list of callsigns), and
the data payload. -/
structure AprsMessage where
  fromCall : List Char
  toCall : List Char
  via : List (List Char)
  data : APRSData

/-- One observable output of `read_messages` for a single input line.
`commentEcho` is the synchronous `println!("{}", &pos.comment)`;
`displayLine` carries the fields interpolated into the formatted log
line (its float formatting is outside the model); the other three are
the stdout writes of the `#`-comment, `Unknown`, and `Err` branches. -/
inductive Output where
  | serverComment (line : List Char)
  | commentEcho (comment : List Char)
  | displayLine (tsStr : List Char) (lat lon : Float) (c : OgnComment)
      (fromCall toCall : List Char) (via : List (List Char))
  | unknownData (line : List Char)
  | parseError (line : List Char)

/-- Whether an output is one of the spec §6 output events
(ServerComment, ParseError, UnknownData, DisplayLine); the raw
`println!` comment echo is not one of them. -/
def Output.isSpecEvent : Output → Bool
  | .commentEcho _ => false
  | _ => true

/-- Embedding of the per-line body of `read_messages` in `console.rs`.
The external `aprs_parser::parse` is a black-box collaborator, so its
result for the line is taken as a parameter.  The first component lists
the outputs produced for the line, in order; the second is `some msg`
when processing the line panics (aborting the session), `none` when the
session continues with the next line. -/
def read_line_step (line : List Char) (parsed : Except (List Char) AprsMessage) :
    List Output × Option String :=
  if ['#'].isPrefixOf line then ([.serverComment line], none)
  else
    match parsed with
    | .error e => ([.parseError ("Err: ".toList ++ e)], none)
    | .ok msg =>
      match msg.data with
      | .unknown => ([.unknownData ("Unknown data: ".toList ++ line)], none)
      | .position pos =>
        match parse_ogn_comment pos.comment with
        | .error p => ([.commentEcho pos.comment], some p)
        | .ok none => ([.commentEcho pos.comment], none)
        | .ok (some c) =>
          if c.aircraft_type != AircraftType.Paraglider then
            ([.commentEcho pos.comment], none)
          else
            ([.commentEcho pos.comment,
              .displayLine (timestampDisplay pos.timestamp) pos.latitude pos.longitude
                c msg.fromCall msg.toCall msg.via], none)

/-- The `user` local in `main`. -/
def authUser : List Char := "bolOGNese".toList

/-- The `pass` local in `main`. -/
def authPass : List Char := "-1".toList

/-- The `filter` local in `main`. -/
def authFilter : List Char := "r/47.217/8.804/30".toList

/-- The `auth_line` built in `main`:
`format!("user {} pass {} vers {} {} filter {}\r\n", user, pass,
APP_NAME, APP_VERSION, filter)`.  `APP_NAME` and `APP_VERSION` come from
`env!` at build time (the package manifest is not part of the sources),
so they are parameters. -/
def authLine (appName appVersion : List Char) : List Char :=
  "user ".toList ++ authUser ++ " pass ".toList ++ authPass ++
    " vers ".toList ++ appName ++ ' ' :: appVersion ++
    " filter ".toList ++ authFilter ++ ['\r', '\n']

/-- The complete sequence of outbound writes `main` performs on the feed
socket over the session's lifetime: the single authentication write
(`stream.write_with_mut(...)`); `read_messages` only reads from the
socket. -/
def mainOutboundWrites (appName appVersion : List Char) : List (List Char) :=
  [authLine appName appVersion]

example : parse_ogn_comment ("id3F00AB12".toList) =
    .ok (some ⟨"00AB12".toList, false, false, .Unknown, .Ogn⟩) := by rfl

example : parse_ogn_comment ("no id token here".toList) = .error slicePanicMsg := by rfl

example : parse_ogn_comment ("id+F123456".toList) =
    .ok (some ⟨"123456".toList, false, false, .Helicopter, .Ogn⟩) := by rfl

example : parse_ogn_comment ("hello world".toList) = .ok none := by rfl

example : parse_ogn_comment ("x idZZ123456".toList) = .ok none := by rfl

/-- Splitting a space-free string yields that string as the only chunk. -/
theorem splitOnSpace_no_space (l : List Char) (h : ' ' ∉ l) : splitOnSpace l = [l] := by
  induction l with
  | nil => rfl
  | cons c cs ih =>
    have hc : ¬c = ' ' := fun hce => h (hce ▸ List.mem_cons_self c cs)
    have hcs : ' ' ∉ cs := fun hm => h (List.mem_cons_of_mem _ hm)
    simp [splitOnSpace, hc, ih hcs]

/-- Splitting peels off a space-free chunk before a space. -/
theorem splitOnSpace_append (a b : List Char) (h : ' ' ∉ a) :
    splitOnSpace (a ++ ' ' :: b) = a :: splitOnSpace b := by
  induction a with
  | nil => simp [splitOnSpace]
  | cons c cs ih =>
    have hc : ¬c = ' ' := fun hce => h (hce ▸ List.mem_cons_self c cs)
    have hcs : ' ' ∉ cs := fun hm => h (List.mem_cons_of_mem _ hm)
    simp [splitOnSpace, hc, ih hcs]

/-- The digit loop of `from_str_radix` never returns a value above 255. -/
theorem u8Radix16Go_le (s : List Char) :
    ∀ acc f, acc ≤ 255 → u8Radix16Go s acc = some f → f ≤ 255 := by
  induction s with
  | nil =>
    intro acc f h he
    simp [u8Radix16Go] at he
    omega
  | cons c cs ih =>
    intro acc f h he
    simp only [u8Radix16Go] at he
    cases hd : to_digit16 c with
    | none => rw [hd] at he; exact absurd he (by simp)
    | some d =>
      rw [hd] at he
      by_cases hov : acc * 16 + d > 255
      · simp [hov] at he
      · simp only [if_neg hov] at he
        exact ih _ f (by omega) he

/-- A successful `u8::from_str_radix` result fits in a byte. -/
theorem u8FromStrRadix16_le (s : List Char) (f : Nat)
    (h : u8FromStrRadix16 s = some f) : f ≤ 255 := by
  unfold u8FromStrRadix16 at h
  split at h
  · exact absurd h (by simp)
  · exact absurd h (by simp)
  · exact u8Radix16Go_le _ 0 f (by omega) h
  · exact u8Radix16Go_le _ 0 f (by omega) h

/-- Parsing the two-digit uppercase hex rendering of a byte recovers it. -/
theorem hexByte_parse : ∀ b < 256, u8FromStrRadix16 (hexByte b) = some b := by decide

/-- The hex rendering of a byte contains no space. -/
theorem hexByte_no_space : ∀ b < 256, ' ' ∉ hexByte b := by decide

/-- On masked subfields of a byte, both `TryFrom` conversions succeed and
agree with the spec §3 tables. -/
theorem tryFrom_masked : ∀ b < 256,
    AircraftType.tryFrom ((b &&& 0b00111100) >>> 2) =
      some (aircraftTypeSpec ((b &&& 0b00111100) >>> 2)) ∧
    AddressType.tryFrom (b &&& 0b00000011) =
      some (addressTypeSpec (b &&& 0b00000011)) := by decide

/-- Two-digit rendering of a number below 100. -/
theorem pad2_lt_100 : ∀ n < 100, pad2 n = [Nat.digitChar (n / 10), Nat.digitChar (n % 10)] := by
  decide

/-- Claim C1: for every byte `b` and every space-free address suffix
`addr`, decoding a comment holding the token `"id" ++ hex b ++ addr`
yields a record whose stealth bit is bit 7, whose no-tracking bit is
bit 6, whose aircraft type follows the closed 16-value table on bits
5..2 (0xA and 0xF aliasing to Unknown), and whose address type follows
the table {0: Random, 1: Icao, 2: Flarm, 3: Ogn} on bits 1..0. -/
theorem claim1_identity_decoding (b : Nat) (hb : b < 256) (addr : List Char)
    (ha : ' ' ∉ addr) :
    parse_ogn_comment ('i' :: 'd' :: (hexByte b ++ addr)) =
      .ok (some
        { address := addr
          stealth_mode := decide (b &&& 0x80 ≠ 0)
          no_tracking := decide (b &&& 0x40 ≠ 0)
          aircraft_type := aircraftTypeSpec ((b &&& 0x3C) >>> 2)
          address_type := addressTypeSpec (b &&& 0x03) }) := by
  have hsp : ' ' ∉ ('i' :: 'd' :: (hexByte b ++ addr)) := by
    intro hm
    simp only [List.mem_cons, List.mem_append] at hm
    rcases hm with h1 | h1 | h1 | h1
    · exact absurd h1 (by decide)
    · exact absurd h1 (by decide)
    · exact hexByte_no_space b hb h1
    · exact ha h1
  have hdw : List.dropWhile (fun x => !(['i', 'd'].isPrefixOf x))
      [('i' :: 'd' :: (hexByte b ++ addr))] = [('i' :: 'd' :: (hexByte b ++ addr))] := rfl
  have hlen : ¬(('i' :: 'd' :: (hexByte b ++ addr)).length < 4) := by
    simp [hexByte]
  have hdt : ((('i' :: 'd' :: (hexByte b ++ addr)).drop 2).take 2) = hexByte b := by
    simp [hexByte]
  simp only [parse_ogn_comment, splitOnSpace_no_space _ hsp, hdw, if_neg hlen, hdt,
    hexByte_parse b hb, (tryFrom_masked b hb).1, (tryFrom_masked b hb).2]
  simp [hexByte, Nat.pos_iff_ne_zero]

/-- Claim C1 witness at b = 0x3F, addr = "123456". -/
theorem claim1_witness :
    parse_ogn_comment ('i' :: 'd' :: (hexByte 0x3F ++ "123456".toList)) =
      .ok (some
        { address := "123456".toList
          stealth_mode := decide ((0x3F : Nat) &&& 0x80 ≠ 0)
          no_tracking := decide ((0x3F : Nat) &&& 0x40 ≠ 0)
          aircraft_type := aircraftTypeSpec (((0x3F : Nat) &&& 0x3C) >>> 2)
          address_type := addressTypeSpec ((0x3F : Nat) &&& 0x03) }) :=
  claim1_identity_decoding 0x3F (by decide) "123456".toList (by decide)

/-- Claim C2: the spec asserts that a malformed id token degrades to
`None` and in particular that decoding "no id token here" yields `None`,
but the source slices `&id[2..4]` out of the selected token without a
length check, so the two-character token "id" makes the slice panic. -/
theorem claim2_short_token_panics :
    parse_ogn_comment ("no id token here".toList) = .error slicePanicMsg := by rfl

/-- Claim C5: for every byte, the masked-subfield conversions both
succeed, and `parse_ogn_comment` can never reach the unwrap-panic
branch. -/
theorem claim5_masked_total :
    (∀ flags < 256,
      (AircraftType.tryFrom ((flags &&& 0b00111100) >>> 2)).isSome = true ∧
      (AddressType.tryFrom (flags &&& 0b00000011)).isSome = true) ∧
    ∀ comment, parse_ogn_comment comment ≠ Except.error unwrapPanicMsg := by
  refine ⟨by decide, ?_⟩
  intro comment
  unfold parse_ogn_comment
  split
  · simp
  · split
    · intro hcontra
      injection hcontra with h2
      exact absurd h2 (by decide)
    · split
      · simp
      · next flags heq =>
        have h255 := u8FromStrRadix16_le _ _ heq
        obtain ⟨h1, h2⟩ := tryFrom_masked flags (by omega)
        rw [h1, h2]
        simp

/-- Claim C5 witness at flags = 0xFF and a concrete comment. -/
theorem claim5_witness :
    (AircraftType.tryFrom (((0xFF : Nat) &&& 0b00111100) >>> 2)).isSome = true ∧
    parse_ogn_comment ("id3F00AB12".toList) ≠ Except.error unwrapPanicMsg :=
  ⟨(claim5_masked_total.1 0xFF (by decide)).1, claim5_masked_total.2 ("id3F00AB12".toList)⟩

/-- Claim C6: whenever decoding succeeds, the address field is exactly
the selected token after its first four characters, kept verbatim. -/
theorem claim6_address_verbatim (comment : List Char) (r : OgnComment)
    (h : parse_ogn_comment comment = .ok (some r)) :
    ∃ tok rest,
      (splitOnSpace comment).dropWhile (fun x => !(['i', 'd'].isPrefixOf x)) = tok :: rest ∧
      r.address = tok.drop 4 := by
  unfold parse_ogn_comment at h
  split at h
  · exact absurd h (by simp)
  · next tok rest heq =>
    refine ⟨tok, rest, heq, ?_⟩
    split at h
    · exact absurd h (by simp)
    · split at h
      · exact absurd h (by simp)
      · split at h
        · simp only [Except.ok.injEq, Option.some.injEq] at h
          rw [← h]
        · exact absurd h (by simp)

/-- Claim C6 witness: decoding "id3F00AB12" yields address "00AB12". -/
theorem claim6_witness :
    ∃ tok rest,
      (splitOnSpace ("id3F00AB12".toList)).dropWhile
        (fun x => !(['i', 'd'].isPrefixOf x)) = tok :: rest ∧
      (OgnComment.mk "00AB12".toList false false .Unknown .Ogn).address = tok.drop 4 :=
  claim6_address_verbatim ("id3F00AB12".toList)
    (OgnComment.mk "00AB12".toList false false .Unknown .Ogn) (by rfl)

/-- Claim C9: the flags parser inherits `from_str_radix`'s acceptance of
a leading plus sign, so the token "id+F123456", whose two characters
after the marker are not two hex digits, still decodes, with flags byte
0x0F and address "123456". -/
theorem claim9_plus_sign_accepted :
    u8FromStrRadix16 ['+', 'F'] = some 0x0F ∧
    to_digit16 '+' = none ∧
    parse_ogn_comment ("id+F123456".toList) =
      .ok (some
        { address := "123456".toList
          stealth_mode := decide ((0x0F : Nat) &&& 0x80 ≠ 0)
          no_tracking := decide ((0x0F : Nat) &&& 0x40 ≠ 0)
          aircraft_type := aircraftTypeSpec (((0x0F : Nat) &&& 0x3C) >>> 2)
          address_type := addressTypeSpec ((0x0F : Nat) &&& 0x03) }) := by
  refine ⟨rfl, rfl, ?_⟩
  rfl

/-- Claim C10: an id token of exactly four characters with a valid hex
flags byte decodes to a record with the empty address. -/
theorem claim10_empty_address (comment tok : List Char) (rest : List (List Char)) (f : Nat)
    (hd : (splitOnSpace comment).dropWhile (fun x => !(['i', 'd'].isPrefixOf x)) = tok :: rest)
    (hlen : tok.length = 4)
    (hf : u8FromStrRadix16 ((tok.drop 2).take 2) = some f) :
    ∃ r : OgnComment, parse_ogn_comment comment = .ok (some r) ∧ r.address = [] := by
  have h255 := u8FromStrRadix16_le _ _ hf
  obtain ⟨h1, h2⟩ := tryFrom_masked f (by omega)
  have hnil : tok.drop 4 = [] := List.drop_eq_nil_of_le (by omega)
  refine ⟨⟨tok.drop 4, decide ((f &&& 0b10000000) > 0), decide ((f &&& 0b01000000) > 0),
      aircraftTypeSpec ((f &&& 0b00111100) >>> 2), addressTypeSpec (f &&& 0b00000011)⟩,
    ?_, hnil⟩
  unfold parse_ogn_comment
  rw [hd]
  simp [hlen, hf, h1, h2]

/-- Claim C10 witness: the comment "id3F" decodes with an empty address. -/
theorem claim10_witness :
    ∃ r : OgnComment, parse_ogn_comment ("id3F".toList) = .ok (some r) ∧ r.address = [] :=
  claim10_empty_address ("id3F".toList) ("id3F".toList) [] 0x3F (by rfl) (by rfl) (by rfl)

/-- Claim C3: for a parsed position report whose comment fails identity
decoding or decodes to a non-Paraglider aircraft type, the session emits
no output event of the spec taxonomy for that line (only the raw comment
echo) and continues with the next line (no panic, no abort). -/
theorem claim3_filter_suppresses (line : List Char) (parsed : Except (List Char) AprsMessage)
    (msg : AprsMessage) (pos : PositionData)
    (hline : List.isPrefixOf ['#'] line = false)
    (hp : parsed = Except.ok msg) (hdata : msg.data = APRSData.position pos)
    (hdec : parse_ogn_comment pos.comment = .ok none ∨
      ∃ c, parse_ogn_comment pos.comment = .ok (some c) ∧
        c.aircraft_type ≠ AircraftType.Paraglider) :
    (read_line_step line parsed).1.filter Output.isSpecEvent = [] ∧
    (read_line_step line parsed).2 = none := by
  subst hp
  rcases hdec with hnone | ⟨c, hc, hne⟩
  · simp [read_line_step, hline, hdata, hnone, Output.isSpecEvent]
  · have hb : (c.aircraft_type != AircraftType.Paraglider) = true := by
      cases hty : c.aircraft_type <;> first | rfl | exact absurd hty hne
    simp [read_line_step, hline, hdata, hc, hb, Output.isSpecEvent]

/-- Claim C3 witness: a position line whose comment has no id token. -/
theorem claim3_witness :
    (read_line_step ['x'] (Except.ok
      (AprsMessage.mk "A".toList "B".toList []
        (APRSData.position (PositionData.mk none 0.0 0.0 "hello".toList))))).1.filter
          Output.isSpecEvent = [] ∧
    (read_line_step ['x'] (Except.ok
      (AprsMessage.mk "A".toList "B".toList []
        (APRSData.position (PositionData.mk none 0.0 0.0 "hello".toList))))).2 = none :=
  claim3_filter_suppresses ['x'] _ _ _ (by rfl) rfl rfl (Or.inl (by rfl))

/-- Claim C8: for every line handled as a position report, the raw
comment is printed first, before identity decoding and the aircraft-type
filter, so the comment echo output exists even when the beacon is then
suppressed. -/
theorem claim8_comment_printed (line : List Char) (parsed : Except (List Char) AprsMessage)
    (msg : AprsMessage) (pos : PositionData)
    (hline : List.isPrefixOf ['#'] line = false)
    (hp : parsed = Except.ok msg) (hdata : msg.data = APRSData.position pos) :
    ∃ rest, (read_line_step line parsed).1 = Output.commentEcho pos.comment :: rest := by
  subst hp
  cases hpc : parse_ogn_comment pos.comment with
  | error p => exact ⟨[], by simp [read_line_step, hline, hdata, hpc]⟩
  | ok oc =>
    cases oc with
    | none => exact ⟨[], by simp [read_line_step, hline, hdata, hpc]⟩
    | some c =>
      by_cases hb : (c.aircraft_type != AircraftType.Paraglider) = true
      · exact ⟨[], by simp [read_line_step, hline, hdata, hpc, hb]⟩
      · exact ⟨[Output.displayLine (timestampDisplay pos.timestamp) pos.latitude
          pos.longitude c msg.fromCall msg.toCall msg.via],
          by simp [read_line_step, hline, hdata, hpc, hb]⟩

/-- Claim C8 witness: the comment echo is emitted even for a comment the
decoder rejects. -/
theorem claim8_witness :
    ∃ rest, (read_line_step ['x'] (Except.ok
      (AprsMessage.mk "A".toList "B".toList []
        (APRSData.position (PositionData.mk none 0.0 0.0 "hello".toList))))).1 =
      Output.commentEcho ("hello".toList) :: rest :=
  claim8_comment_printed ['x']
    (Except.ok (AprsMessage.mk "A".toList "B".toList []
      (APRSData.position (PositionData.mk none 0.0 0.0 "hello".toList))))
    (AprsMessage.mk "A".toList "B".toList []
      (APRSData.position (PositionData.mk none 0.0 0.0 "hello".toList)))
    (PositionData.mk none 0.0 0.0 "hello".toList) (by rfl) rfl rfl

/-- Claim C4: exact timestamp canonicalization: `DDHHMM d h m` renders
as "DD/HH:MM" with two-digit zero-padded fields, `HHMMSS h m s` as
"Today/HH:MM:SS", `Unsupported s` as `s` unchanged, and a missing
timestamp displays as "?". -/
theorem claim4_timestamp_strings :
    (∀ d h m, d < 100 → h < 100 → m < 100 →
      timestamp_to_str (Timestamp.DDHHMM d h m) =
        [Nat.digitChar (d / 10), Nat.digitChar (d % 10), '/',
         Nat.digitChar (h / 10), Nat.digitChar (h % 10), ':',
         Nat.digitChar (m / 10), Nat.digitChar (m % 10)]) ∧
    (∀ h m s, h < 100 → m < 100 → s < 100 →
      timestamp_to_str (Timestamp.HHMMSS h m s) =
        "Today/".toList ++
          [Nat.digitChar (h / 10), Nat.digitChar (h % 10), ':',
           Nat.digitChar (m / 10), Nat.digitChar (m % 10), ':',
           Nat.digitChar (s / 10), Nat.digitChar (s % 10)]) ∧
    (∀ val, timestamp_to_str (Timestamp.Unsupported val) = val) ∧
    timestampDisplay none = ['?'] := by
  refine ⟨?_, ?_, fun val => rfl, rfl⟩
  · intro d h m hd hh hm
    simp [timestamp_to_str, pad2_lt_100 d hd, pad2_lt_100 h hh, pad2_lt_100 m hm]
  · intro h m s hh hm hs
    simp [timestamp_to_str, pad2_lt_100 h hh, pad2_lt_100 m hm, pad2_lt_100 s hs]

/-- Claim C4 witness: the spec §8 examples, (5,14,30) and (9,1,2). -/
theorem claim4_witness :
    timestamp_to_str (Timestamp.DDHHMM 5 14 30) = "05/14:30".toList ∧
    timestamp_to_str (Timestamp.HHMMSS 9 1 2) = "Today/09:01:02".toList := by
  constructor
  · rw [claim4_timestamp_strings.1 5 14 30 (by decide) (by decide) (by decide)]
    decide
  · rw [claim4_timestamp_strings.2.1 9 1 2 (by decide) (by decide) (by decide)]
    decide

/-- Claim C7: over the session's lifetime exactly one outbound write is
performed, never retried, and its bytes are the authentication line
"user .. pass .. vers .. .. filter .." followed by CR LF, whose
space-separated tokens are exactly the five configured placeholders
after the three keywords. -/
theorem claim7_auth_line (n v : List Char) (hn : ' ' ∉ n) (hv : ' ' ∉ v) :
    mainOutboundWrites n v = [authLine n v] ∧
    (mainOutboundWrites n v).length = 1 ∧
    ∃ body, authLine n v = body ++ ['\r', '\n'] ∧
      splitOnSpace body =
        ["user".toList, authUser, "pass".toList, authPass, "vers".toList, n, v,
         "filter".toList, authFilter] := by
  refine ⟨rfl, rfl, "user".toList ++ ' ' :: (authUser ++ ' ' :: ("pass".toList ++ ' ' ::
    (authPass ++ ' ' :: ("vers".toList ++ ' ' :: (n ++ ' ' :: (v ++ ' ' ::
      ("filter".toList ++ ' ' :: authFilter))))))), ?_, ?_⟩
  · simp [authLine, authUser, authPass, authFilter, List.append_assoc]
  · rw [splitOnSpace_append _ _ (by decide), splitOnSpace_append _ _ (by decide),
      splitOnSpace_append _ _ (by decide), splitOnSpace_append _ _ (by decide),
      splitOnSpace_append _ _ (by decide), splitOnSpace_append _ _ hn,
      splitOnSpace_append _ _ hv, splitOnSpace_append _ _ (by decide),
      splitOnSpace_no_space _ (by decide)]

/-- Claim C7 witness at concrete app name and version. -/
theorem claim7_witness :
    mainOutboundWrites ['a'] ['b'] = [authLine ['a'] ['b']] ∧
    (mainOutboundWrites ['a'] ['b']).length = 1 ∧
    ∃ body, authLine ['a'] ['b'] = body ++ ['\r', '\n'] ∧
      splitOnSpace body =
        ["user".toList, authUser, "pass".toList, authPass, "vers".toList, ['a'], ['b'],
         "filter".toList, authFilter] :=
  claim7_auth_line ['a'] ['b'] (by decide) (by decide)
